import Mathlib

/-!
Verification of the dynamic schema ingestion and maintenance engine of the
SF_Orchestrator repository ("main copy.py"): the `DatabaseManager` and
`ScreamingFrogWrapper` classes.  Python strings are embedded as `List Char`,
SQLite tables as association lists of column definitions and rows, and every
stateful method as an explicit state-passing function.  Python's `str.lower`
is modelled for the ASCII range (all identifiers in the source are ASCII).
-/

namespace SFOrch

/-- Python strings are embedded as lists of characters. -/
abbrev Name := List Char

/-- `p` is an initial segment of `l` — embeds Python `str.startswith`. -/
def hasPre : Name → Name → Bool
  | [], _ => true
  | _ :: _, [] => false
  | p :: ps, c :: cs => p = c && hasPre ps cs

/-- `s` is a final segment of `l` — embeds Python `str.endswith`. -/
def hasSuf (s l : Name) : Bool :=
  hasPre s.reverse l.reverse

/-- `needle` occurs contiguously in `l` — embeds Python's `in` on strings. -/
def containsSub (needle : Name) : Name → Bool
  | [] => needle.isEmpty
  | c :: cs => hasPre needle (c :: cs) || containsSub needle cs

/-- ASCII model of Python `str.lower` on one character. -/
def lowerChar (c : Char) : Char :=
  if 'A' ≤ c ∧ c ≤ 'Z' then Char.ofNat (c.toNat + 32) else c

/-- ASCII model of Python `str.lower`. -/
def lowerName (n : Name) : Name := n.map lowerChar

/-- Embeds `.replace(' ', '_').replace('-', '_')` (source lines 147, 289, 320). -/
def replaceSep (n : Name) : Name :=
  n.map (fun c => if c = ' ' ∨ c = '-' then '_' else c)

/-- SQLite storage classes used by the source: INTEGER, REAL, TIMESTAMP, TEXT. -/
inductive SType
  | integer
  | real
  | timestamp
  | text
deriving DecidableEq

/-- Python cell values as seen by `get_column_type` and the row store:
`vnone` covers `None`/`NaN` (`pd.isna`), `vint`/`vfloat` the
`isinstance(v, (int, float))` case, `vts` the `datetime`/`pd.Timestamp`
case (timestamps as integers), `vstr` everything else. -/
inductive Value
  | vnone
  | vint (i : Int)
  | vfloat (mantissa : Int)
  | vts (t : Int)
  | vstr (s : Name)
deriving DecidableEq

/-- `numeric_indicators` of `get_column_type` (source line 37). -/
def numericIndicators : List Name :=
  ["_ms", "_bytes", "_length", "_size", "_count", "_number", "_code"].map String.toList

/-- `timestamp_indicators` of `get_column_type` (source line 38). -/
def timestampIndicators : List Name :=
  ["_date", "_time", "timestamp", "last_modified"].map String.toList

/-- Embeds `get_column_type(column_name, sample_value)` (source lines 34-56):
numeric suffix check first, then temporal substring check, then inspection of
the sample value with `None`/`NaN` defaulting to TEXT. -/
def getColumnType (columnName : Name) (sampleValue : Value) : SType :=
  if numericIndicators.any (fun ind => hasSuf ind (lowerName columnName)) then .real
  else if timestampIndicators.any (fun ind => containsSub ind (lowerName columnName)) then .timestamp
  else
    match sampleValue with
    | .vnone => .text
    | .vint _ => .real
    | .vfloat _ => .real
    | .vts _ => .timestamp
    | .vstr _ => .text

/-! ## TableNamer: `_determine_table_name` (source lines 314-326)

`Path(csv_file).stem` is embedded for POSIX paths: split on `/`, drop empty
and `.` components, take the last component, then strip the final suffix
(the part from the last dot, when that dot is neither the first nor the
last character of the component). -/

/-- Split a character list at every `/`, keeping empty pieces. -/
def splitOnSlash : Name → List Name
  | [] => [[]]
  | c :: cs =>
    match splitOnSlash cs with
    | [] => [[]]
    | h :: t => if c = '/' then [] :: h :: t else (c :: h) :: t

/-- Last element of a list of components, defaulting to the empty component. -/
def lastD : List Name → Name
  | [] => []
  | [a] => a
  | _ :: rest => lastD rest

/-- The final path component (`PurePosixPath(s).name`): empty and `.`
components are dropped by pathlib's parser. -/
def lastComponent (s : Name) : Name :=
  lastD ((splitOnSlash s).filter (fun c => decide (c ≠ [] ∧ c ≠ ['.'])))

/-- Index of the last `.` in a component, if any. -/
def lastDotIdx : Name → Option Nat
  | [] => none
  | c :: cs =>
    match lastDotIdx cs with
    | some i => some (i + 1)
    | none => if c = '.' then some 0 else none

/-- Strip the suffix from a file name, following pathlib: the suffix starts at
the last dot when `0 < i < len - 1`. -/
def stemOfName (n : Name) : Name :=
  match lastDotIdx n with
  | some i => if 0 < i ∧ i + 1 < n.length then n.take i else n
  | none => n

/-- Embeds `Path(csv_file).stem`. -/
def pyStem (s : Name) : Name := stemOfName (lastComponent s)

/-- The fixed namespace marker prepended by `_determine_table_name`. -/
def sfMarker : Name := "sf_".toList

/-- `clean_name` of `_determine_table_name`: the stem of the source file,
lower-cased, with spaces and hyphens replaced by underscores. -/
def cleanedName (csvFile : Name) : Name := replaceSep (lowerName (pyStem csvFile))

/-- Embeds `DatabaseManager._determine_table_name(csv_file, df)` (source lines
314-326).  The `df` argument of the source is unused there, so it is omitted:
stem, lower-case, replace spaces/hyphens with underscores, and prepend `sf_`
when the cleaned name does not already start with it. -/
def determineTableName (csvFile : Name) : Name :=
  if hasPre sfMarker (cleanedName csvFile) then cleanedName csvFile
  else sfMarker ++ cleanedName csvFile

/-! ### Supporting lemmas for the TableNamer -/

theorem splitOnSlash_ne_nil (l : Name) : splitOnSlash l ≠ [] := by
  cases l with
  | nil => simp [splitOnSlash]
  | cons c cs =>
    cases h : splitOnSlash cs with
    | nil => simp [splitOnSlash, h]
    | cons hd tl =>
      simp only [splitOnSlash, h]
      split <;> simp

theorem length_le_of_mem_splitOnSlash :
    ∀ (l c : Name), c ∈ splitOnSlash l → c.length ≤ l.length := by
  intro l
  induction l with
  | nil =>
    intro c hc
    simp only [splitOnSlash, List.mem_singleton] at hc
    simp [hc]
  | cons a cs ih =>
    intro c hc
    cases h : splitOnSlash cs with
    | nil => exact absurd h (splitOnSlash_ne_nil cs)
    | cons hd tl =>
      simp only [splitOnSlash, h] at hc
      by_cases ha : a = '/'
      · rw [if_pos ha] at hc
        rcases List.mem_cons.mp hc with rfl | hc'
        · simp
        · have := ih c (h ▸ hc')
          simp only [List.length_cons]
          omega
      · rw [if_neg ha] at hc
        rcases List.mem_cons.mp hc with rfl | hc'
        · have := ih hd (h ▸ List.mem_cons_self hd tl)
          simp only [List.length_cons]
          omega
        · have := ih c (h ▸ List.mem_cons_of_mem hd hc')
          simp only [List.length_cons]
          omega

theorem lastD_eq_nil_or_mem : ∀ (l : List Name), lastD l = [] ∨ lastD l ∈ l := by
  intro l
  induction l with
  | nil => left; rfl
  | cons a rest ih =>
    cases rest with
    | nil => right; simp [lastD]
    | cons b rest' =>
      rcases ih with h | h
      · left; simpa [lastD] using h
      · right
        refine List.mem_cons_of_mem a ?_
        simpa [lastD] using h

theorem lastComponent_length (s : Name) : (lastComponent s).length ≤ s.length := by
  unfold lastComponent
  rcases lastD_eq_nil_or_mem ((splitOnSlash s).filter (fun c => decide (c ≠ [] ∧ c ≠ ['.']))) with h | h
  · rw [h]; simp
  · exact length_le_of_mem_splitOnSlash s _ (List.mem_of_mem_filter h)

theorem stemOfName_length (n : Name) : (stemOfName n).length ≤ n.length := by
  cases h : lastDotIdx n with
  | none => simp [stemOfName, h]
  | some i =>
    simp only [stemOfName, h]
    split
    · rw [List.length_take]
      exact Nat.min_le_right _ _
    · exact le_refl _

theorem pyStem_length (s : Name) : (pyStem s).length ≤ s.length :=
  le_trans (stemOfName_length (lastComponent s)) (lastComponent_length s)

theorem hasPre_append_self : ∀ (p r : Name), hasPre p (p ++ r) = true := by
  intro p r
  induction p with
  | nil => rfl
  | cons c cs ih => simp [hasPre, ih]

/-- C8: `TableNamer.deriveName` (`_determine_table_name`) is a pure function of
its input string (it is a Lean `def` with no state); for every input the
output is non-empty and begins with the namespace marker `sf_`; and applying
it to its own output never duplicates the marker: the second derivation is
never the first output with another `sf_` glued in front. -/
theorem derive_name_total_prefixed_nondup (s : Name) :
    determineTableName s ≠ [] ∧
    hasPre sfMarker (determineTableName s) = true ∧
    determineTableName (determineTableName s) ≠ sfMarker ++ determineTableName s := by
  have hlen : ∀ t : Name, (cleanedName t).length ≤ t.length := by
    intro t
    rw [cleanedName, replaceSep, List.length_map, lowerName, List.length_map]
    exact pyStem_length t
  have hpre : ∀ t : Name, hasPre sfMarker (determineTableName t) = true := by
    intro t
    unfold determineTableName
    split
    next h => exact h
    next h => exact hasPre_append_self _ _
  have hne : ∀ t : Name, determineTableName t ≠ [] := by
    intro t
    unfold determineTableName
    split
    next h =>
      intro hnil
      rw [hnil] at h
      exact absurd h (by decide)
    next h => simp [sfMarker]
  refine ⟨hne s, hpre s, ?_⟩
  have hy : hasPre sfMarker (determineTableName s) = true := hpre s
  generalize determineTableName s = y at hy ⊢
  unfold determineTableName
  split
  next h =>
    intro heq
    have l1 : (cleanedName y).length ≤ y.length := hlen y
    rw [heq, List.length_append] at l1
    have : sfMarker.length = 3 := by decide
    omega
  next h =>
    intro heq
    have hcl : cleanedName y = y := List.append_cancel_left heq
    rw [hcl] at h
    exact h hy

/-- C6: for every column name that case-insensitively ends with one of the
fixed numeric suffixes (`_ms`, `_bytes`, `_length`, `_size`, `_count`,
`_number`, `_code`) and every sample value, including a missing one,
`get_column_type` returns REAL. -/
theorem numeric_suffix_returns_real (columnName : Name) (sampleValue : Value)
    (h : numericIndicators.any (fun ind => hasSuf ind (lowerName columnName)) = true) :
    getColumnType columnName sampleValue = .real := by
  unfold getColumnType
  simp only [h, if_true]

/-- Witness for C6 at a concrete mixed-case column name and a missing sample. -/
theorem numeric_suffix_returns_real_witness :
    numericIndicators.any (fun ind => hasSuf ind (lowerName ("Load_Time_MS".toList))) = true ∧
    getColumnType ("Load_Time_MS".toList) Value.vnone = SType.real :=
  ⟨by decide, numeric_suffix_returns_real ("Load_Time_MS".toList) Value.vnone (by decide)⟩

/-! ## The store and the `DatabaseManager` state

The SQLite file is an association list from table name to table; a table is
its column definitions plus its rows (each row an association list from
column name to value).  The `DatabaseManager` state carries the store, the
`maintenance_log` table (`none` when the table does not exist — nothing in
the reachable source ever creates it, since `_create_base_tables` has no call
site), and the keys of the in-memory `self.table_schemas` dict. -/

structure ColumnDef where
  name : Name
  type : SType
deriving DecidableEq

structure Table where
  cols : List ColumnDef
  rows : List (List (Name × Value))
deriving DecidableEq

/-- One row of `maintenance_log`. -/
structure MLRow where
  id : Nat
  operation : Name
  details : Name
  status : Name
  errorMessage : Option Name
  completed : Bool
deriving DecidableEq

structure DBM where
  store : List (Name × Table)
  maintLog : Option (List MLRow)
  tableSchemas : List Name
deriving DecidableEq

/-- Errors raised by the embedded SQLite layer and by Python name resolution. -/
inductive PyErr
  | tableAlreadyExists
  | duplicateColumn
  | noSuchTable
  | noSuchColumn
  | nameError
deriving DecidableEq

def lookupTable (st : List (Name × Table)) (t : Name) : Option Table :=
  (st.find? (fun p => decide (p.1 = t))).map (fun p => p.2)

def updateTable (st : List (Name × Table)) (t : Name) (f : Table → Table) :
    List (Name × Table) :=
  st.map (fun p => if p.1 = t then (p.1, f p.2) else p)

def storeNames (st : List (Name × Table)) : List Name := st.map (fun p => p.1)

def colNames (tb : Table) : List Name := tb.cols.map (fun c => c.name)

/-- The live column set of `t` as `PRAGMA table_info(t)` reports it: empty
when the table does not exist. -/
def liveCols (st : List (Name × Table)) (t : Name) : List Name :=
  ((lookupTable st t).map colNames).getD []

/-- A pandas DataFrame: column labels and rows of values aligned by position. -/
structure Df where
  cols : List Name
  rows : List (List Value)
deriving DecidableEq

/-- `sample_row.get(col)` where `sample_row = df.iloc[0] if not df.empty else
pd.Series()`: the first row's value at the column's position, `None` when the
frame is empty or the position is out of range. -/
def sampleVal (df : Df) (i : Nat) : Value :=
  match df.rows with
  | [] => .vnone
  | r :: _ => r.getD i .vnone

/-- The three fixed metadata columns appended by `ensure_table_for_dataframe`
(source lines 151-156): `crawl_id INTEGER`, `processed_at TIMESTAMP DEFAULT
CURRENT_TIMESTAMP`, `source_file TEXT`. -/
def metadataCols : List ColumnDef :=
  [⟨"crawl_id".toList, .integer⟩, ⟨"processed_at".toList, .timestamp⟩,
   ⟨"source_file".toList, .text⟩]

/-- Embeds `.replace(' ', '_').replace('-', '_').lower()` (source line 147). -/
def normalizeCol (n : Name) : Name := lowerName (replaceSep n)

/-- The `columns` list built by `ensure_table_for_dataframe` (source lines
144-156): each DataFrame column normalized and typed from its original label
and first-row sample, followed by the metadata columns. -/
def requestedCols (df : Df) : List ColumnDef :=
  df.cols.enum.map
    (fun p => ⟨normalizeCol p.2, getColumnType p.2 (sampleVal df p.1)⟩)
  ++ metadataCols

/-- Some name occurs twice in the list.  SQLite compares column names
case-insensitively; every name reaching this check is already lower-cased
(`normalizeCol` and the metadata names), so plain equality is that
comparison. -/
def dupNames : List Name → Bool
  | [] => false
  | n :: rest => decide (n ∈ rest) || dupNames rest

/-- Schema mutations performed against the store. -/
inductive SchemaOp
  | createdTable (t : Name)
  | addedColumn (t : Name) (c : Name)
deriving DecidableEq

/-- Result of a schema-reconciliation or ingestion method: the state after the
call, the schema mutations performed, and the exception propagated to the
caller, if any (`none` when the method returns normally). -/
structure EnsureResult where
  db : DBM
  ops : List SchemaOp
  err : Option PyErr
deriving DecidableEq

/-- One `ALTER TABLE t ADD COLUMN` attempt (source lines 169-174).  The
`sqlite3.OperationalError` cases — table absent (the PRAGMA reported no
columns for a missing table, so every add is attempted) or duplicate column —
are caught by the source and skipped. -/
def addOneColumn (st : List (Name × Table)) (t : Name) (cd : ColumnDef) :
    List (Name × Table) × List SchemaOp :=
  match lookupTable st t with
  | none => (st, [])
  | some tb =>
      if cd.name ∈ colNames tb then (st, [])
      else (updateTable st t (fun tb' => { tb' with cols := tb'.cols ++ [cd] }),
            [.addedColumn t cd.name])

/-- Embeds `DatabaseManager.ensure_table_for_dataframe(table_name, df)`
(source lines 136-186).  The existing-table branch is guarded by membership
of `table_name` in the in-memory `self.table_schemas` dict; only inside that
branch is the live column set re-queried via `PRAGMA table_info`, and missing
columns are compared against that one point-in-time set while columns are
added.  The create branch issues `CREATE TABLE` without `IF NOT EXISTS`, so
it raises `OperationalError` (uncaught): `table already exists` when the
table is already in the store (SQLite reports this while parsing the table
name, before looking at columns), and otherwise `duplicate column name` when
the column list repeats a name — which happens whenever the frame already
carries a metadata column, since `metadata_columns` is appended
unconditionally (source line 156). -/
def ensureTable (db : DBM) (t : Name) (df : Df) : EnsureResult :=
  if t ∈ db.tableSchemas then
    let current := liveCols db.store t
    let res := (requestedCols df).foldl
      (fun (acc : List (Name × Table) × List SchemaOp) cd =>
        if cd.name ∈ current then acc
        else
          let r := addOneColumn acc.1 t cd
          (r.1, acc.2 ++ r.2))
      (db.store, [])
    { db := { db with store := res.1 }, ops := res.2, err := none }
  else
    if t ∈ storeNames db.store then
      { db := db, ops := [], err := some .tableAlreadyExists }
    else if dupNames ((⟨"id".toList, SType.integer⟩ :: requestedCols df).map
        (fun c => c.name)) then
      { db := db, ops := [], err := some .duplicateColumn }
    else
      { db := { db with store :=
            db.store ++ [(t, ⟨⟨"id".toList, .integer⟩ :: requestedCols df, []⟩)] },
        ops := [.createdTable t], err := none }

/-! ## IngestionPipeline: `process_screaming_frog_csv` (source lines 281-312) -/

/-- Python `str.strip()` on the space character (the source's headers are
space/letter ASCII). -/
def stripName (n : Name) : Name :=
  ((n.dropWhile (fun c => c = ' ')).reverse.dropWhile (fun c => c = ' ')).reverse

/-- The SQLite type pandas' `to_sql` declares for a column, from a sample
value (int64 → INTEGER, float64 → REAL, datetime64 → TIMESTAMP, object →
TEXT). -/
def pandasColType : Value → SType
  | .vint _ => .integer
  | .vfloat _ => .real
  | .vts _ => .timestamp
  | .vnone => .text
  | .vstr _ => .text

/-- The column definitions `to_sql` uses when it has to create the
destination table itself: the frame's own labels with pandas-inferred types. -/
def toSqlCreateCols (df : Df) : List ColumnDef :=
  df.cols.enum.map (fun p => ⟨p.2, pandasColType (sampleVal df p.1)⟩)

/-- `df.to_sql(table_name, conn, if_exists='append', index=False)`: when the
destination table is missing, pandas creates it from the frame and inserts;
when it exists, pandas appends, raising (`table X has no column named Y`)
if the frame carries a column the table lacks. -/
def insertRows (st : List (Name × Table)) (t : Name) (df : Df) :
    Except PyErr (List (Name × Table)) :=
  match lookupTable st t with
  | none =>
      .ok (st ++ [(t, ⟨toSqlCreateCols df, df.rows.map (fun r => df.cols.zip r)⟩)])
  | some tb =>
      if df.cols.all (fun c => decide (c ∈ colNames tb)) then
        .ok (updateTable st t (fun tb' =>
          { tb' with rows := tb'.rows ++ df.rows.map (fun r => df.cols.zip r) }))
      else .error .noSuchColumn

/-- `df[m] = v` for a scalar `v` (source lines 292-294): overwrite the column
when the label already exists, otherwise append it on the right. -/
def setMetaCol (df : Df) (m : Name) (v : Value) : Df :=
  match df.cols.findIdx? (fun c => decide (c = m)) with
  | some i => ⟨df.cols, df.rows.map (fun r => r.set i v)⟩
  | none => ⟨df.cols ++ [m], df.rows.map (fun r => r ++ [v])⟩

/-- Result of `process_screaming_frog_csv`: state, stored-row count (the
source returns `len(df)`), schema mutations, and the exception re-raised to
the caller, if any. -/
structure IngestResult where
  db : DBM
  count : Nat
  ops : List SchemaOp
  err : Option PyErr
deriving DecidableEq

/-- Embeds `DatabaseManager.process_screaming_frog_csv(csv_file, crawl_id)`
(source lines 281-312) on an already-parsed frame `df`: clean the column
labels (strip, space/hyphen→underscore, lower), set the `crawl_id`,
`source_file` and `processed_at` columns on the frame (lines 292-294),
derive the table name, reconcile the schema, and append the rows.  Because
the frame now carries those three labels and `ensure_table_for_dataframe`
appends `metadata_columns` again, the create branch's `CREATE TABLE` always
repeats them and raises `duplicate column name`.  Exceptions are logged and
re-raised (`raise` at source line 312). -/
def processCsv (db : DBM) (csvFile : Name) (crawlId : Int) (now : Int) (df : Df) :
    IngestResult :=
  let df' : Df :=
    setMetaCol (setMetaCol (setMetaCol
        ⟨df.cols.map (fun c => normalizeCol (stripName c)), df.rows⟩
      ("crawl_id".toList) (.vint crawlId))
      ("source_file".toList) (.vstr csvFile))
      ("processed_at".toList) (.vts now)
  let t := determineTableName csvFile
  let er := ensureTable db t df'
  match er.err with
  | some e => { db := er.db, count := 0, ops := er.ops, err := some e }
  | none =>
      match insertRows er.db.store t df' with
      | .error e => { db := er.db, count := 0, ops := er.ops, err := some e }
      | .ok st' =>
          { db := { er.db with store := st' }, count := df.rows.length,
            ops := er.ops, err := none }

/-! ## MaintenanceScheduler: `optimize_database` and `cleanup_old_records`
(source lines 188-279)

Both methods execute `BEGIN`, insert an `in_progress` row into
`maintenance_log`, do their work, and update the row to `completed` before
`commit`.  On an exception they call `conn.rollback()` — which also rolls
back the `in_progress` insert, since it was made inside the same explicit
transaction — and then run the `failed` update against the rolled-back
store before committing; the exception itself is swallowed.  When the
`maintenance_log` table does not exist the initial insert raises before
`log_id` is bound, and the handler's `if log_id:` raises `NameError`. -/

/-- Result of a maintenance run: state, per-table deleted-row counts (as the
source logs them), and the exception propagated, if any. -/
structure MaintResult where
  db : DBM
  counts : List (Name × Nat)
  err : Option PyErr
deriving DecidableEq

/-- `lastrowid` of an insert into `maintenance_log`. -/
def maxLogId (log : List MLRow) : Nat := log.foldr (fun r m => max r.id m) 0

def setLogStatus (log : List MLRow) (logId : Nat) (status : Name)
    (err : Option Name) : List MLRow :=
  log.map (fun r =>
    if r.id = logId then
      { r with status := status, errorMessage := err, completed := true }
    else r)

/-- Embeds `DatabaseManager.optimize_database()` (source lines 188-230).  The
work step (`VACUUM; ANALYZE; PRAGMA optimize`) is modelled by the
`vacuumFails` flag (in SQLite, `VACUUM` inside the explicit transaction the
method opens always fails). -/
def optimizeDatabase (db : DBM) (vacuumFails : Bool) : MaintResult :=
  match db.maintLog with
  | none => { db := db, counts := [], err := some .nameError }
  | some log =>
      let logId := maxLogId log + 1
      let entry : MLRow :=
        ⟨logId, "optimize".toList, "Regular database optimization".toList,
         "in_progress".toList, none, false⟩
      if vacuumFails then
        -- rollback to the pre-BEGIN snapshot, then UPDATE ... WHERE id = logId
        { db := { db with maintLog := some (setLogStatus log logId
              ("failed".toList) (some ("Database optimization failed".toList))) },
          counts := [], err := none }
      else
        { db := { db with maintLog := some (setLogStatus (log ++ [entry]) logId
              ("completed".toList) none) },
          counts := [], err := none }

/-- `WHERE crawl_date < cutoff` on one row: NULL or a non-numeric value
compares as unknown and is kept. -/
def rowDateLt (row : List (Name × Value)) (cutoff : Int) : Bool :=
  match row.find? (fun p => decide (p.1 = "crawl_date".toList)) with
  | some (_, Value.vts t) => decide (t < cutoff)
  | some (_, Value.vint t) => decide (t < cutoff)
  | _ => false

/-- `tables_to_clean` (source line 247). -/
def tablesToClean : List Name := ["crawl_results".toList, "crawl_metadata".toList]

/-- `DELETE FROM t WHERE crawl_date < cutoff`, with `cursor.rowcount`:
errors when the table or its `crawl_date` column does not exist. -/
def deleteOld (st : List (Name × Table)) (t : Name) (cutoff : Int) :
    Except PyErr (List (Name × Table) × Nat) :=
  match lookupTable st t with
  | none => .error .noSuchTable
  | some tb =>
      if "crawl_date".toList ∈ colNames tb then
        .ok (updateTable st t (fun tb' =>
              { tb' with rows := tb'.rows.filter (fun r => !rowDateLt r cutoff) }),
             tb.rows.length - (tb.rows.filter (fun r => !rowDateLt r cutoff)).length)
      else .error .noSuchColumn

/-- Embeds `DatabaseManager.cleanup_old_records(days_to_keep)` (source lines
232-279) at current time `now` (in days): the delete loop runs only for the
tables of `tables_to_clean` present in the in-memory `self.table_schemas`
dict. -/
def cleanupOldRecords (db : DBM) (daysToKeep : Int) (now : Int) : MaintResult :=
  match db.maintLog with
  | none => { db := db, counts := [], err := some .nameError }
  | some log =>
      let logId := maxLogId log + 1
      let entry : MLRow :=
        ⟨logId, "cleanup".toList, "Removing old records".toList,
         "in_progress".toList, none, false⟩
      let cutoff := now - daysToKeep
      let folded := tablesToClean.foldl
        (fun (acc : Except PyErr (List (Name × Table) × List (Name × Nat))) t =>
          match acc with
          | .error e => .error e
          | .ok (st, cnts) =>
              if t ∈ db.tableSchemas then
                match deleteOld st t cutoff with
                | .error e => .error e
                | .ok (st', n) => .ok (st', cnts ++ [(t, n)])
              else .ok (st, cnts))
        (.ok (db.store, []))
      match folded with
      | .ok (st', cnts) =>
          { db :=
              { db with
                store := st',
                maintLog := some (setLogStatus (log ++ [entry]) logId
                  ("completed".toList) none) },
            counts := cnts, err := none }
      | .error _ =>
          -- rollback to the pre-BEGIN snapshot, then the failed update
          { db := { db with maintLog := some (setLogStatus log logId
                ("failed".toList) (some ("Cleanup failed".toList))) },
            counts := [], err := none }

/-! ## CrawlLedger: the `crawl_metadata` updates of `ScreamingFrogWrapper`
(source lines 516-598) -/

/-- One row of `crawl_metadata` as `ScreamingFrogWrapper` reads and writes it. -/
structure CrawlRow where
  id : Nat
  url : Name
  crawlDate : Int
  configUsed : Name
  crawlStatus : Name
  totalUrls : Option Int
  completionTime : Option Int
  errorMessage : Option Name
  commandExecuted : Name
deriving DecidableEq

/-- The completion update of `run_crawl` (source lines 564-569):
`UPDATE crawl_metadata SET crawl_status = 'completed', completion_time = ?
WHERE id = ?` — unconditional on the row's current status. -/
def completeCrawl (rows : List CrawlRow) (cid : Nat) (t : Int) : List CrawlRow :=
  rows.map (fun r =>
    if r.id = cid then
      { r with crawlStatus := "completed".toList, completionTime := some t }
    else r)

/-- Embeds `ScreamingFrogWrapper._update_crawl_failure(crawl_id, error_msg,
start_time)` (source lines 585-598): guarded only by `if crawl_id:` (`none`
models a falsy id), then `UPDATE crawl_metadata SET crawl_status = 'failed',
completion_time = ?, error_message = ? WHERE id = ?` — unconditional on the
row's current status. -/
def updateCrawlFailure (rows : List CrawlRow) (cid : Option Nat) (t : Int)
    (err : Name) : List CrawlRow :=
  match cid with
  | none => rows
  | some c =>
      rows.map (fun r =>
        if r.id = c then
          { r with crawlStatus := "failed".toList, completionTime := some t,
                   errorMessage := some err }
        else r)

/-! ## `DatabaseManager.setup_database` and `__init__` (source lines 58-100)

`setup_database` calls `column_exists(self.cursor, "crawl_metadata",
"command_executed")` as a bare name (line 92).  Python resolves a bare name
in a method body against the local scope, then the module's global namespace,
then builtins — the class body is not part of that chain, so the
`column_exists` defined at line 65 as a `DatabaseManager` attribute is not
found.  `moduleTopLevelNames` lists every binding the module's top level
creates (imports, constants, `def`s and `class`es of `main copy.py`);
`column_exists` is not among them and is not a Python builtin. -/

def moduleTopLevelNames : List Name :=
  ["os", "subprocess", "argparse", "sqlite3", "pd", "datetime", "timedelta",
   "time", "logging", "Path", "sys", "traceback", "shutil",
   "DEFAULT_CONFIG_DIR", "OUTPUT_DIR", "LOG_DIR",
   "setup_logging", "get_column_type", "DatabaseManager",
   "ScreamingFrogWrapper", "main"].map String.toList

/-- The `crawl_metadata` schema of the `CREATE TABLE IF NOT EXISTS` script in
`DatabaseManager.setup_database` (source lines 78-89). -/
def cmSchemaCols : List ColumnDef :=
  [⟨"id".toList, .integer⟩, ⟨"url".toList, .text⟩,
   ⟨"crawl_date".toList, .timestamp⟩, ⟨"config_used".toList, .text⟩,
   ⟨"crawl_status".toList, .text⟩, ⟨"total_urls".toList, .integer⟩,
   ⟨"completion_time".toList, .integer⟩, ⟨"error_message".toList, .text⟩]

def createCrawlMetadataIfAbsent (st : List (Name × Table)) :
    List (Name × Table) :=
  if "crawl_metadata".toList ∈ storeNames st then st
  else st ++ [("crawl_metadata".toList, ⟨cmSchemaCols, []⟩)]

/-- Outcome of constructing a `DatabaseManager`. -/
inductive SetupOutcome
  | ok (st : List (Name × Table))
  | raised (e : PyErr)
deriving DecidableEq

/-- Embeds `DatabaseManager.setup_database` (source lines 70-100) run against
module globals `globals` and an on-disk store `st`: create `crawl_metadata`
if absent, then resolve the bare name `column_exists`; when the name resolves
it would check for the `command_executed` column and add it when missing (the
logic of the line-65 class attribute), otherwise `NameError` is raised.  The
surrounding `except sqlite3.Error` clause does not catch `NameError`, and
`__init__` (line 64) propagates it. -/
def setupDatabase (globals : List Name) (st : List (Name × Table)) :
    SetupOutcome :=
  if "column_exists".toList ∈ globals then
    if "command_executed".toList
        ∈ liveCols (createCrawlMetadataIfAbsent st) ("crawl_metadata".toList) then
      .ok (createCrawlMetadataIfAbsent st)
    else
      .ok (updateTable (createCrawlMetadataIfAbsent st) ("crawl_metadata".toList)
        (fun tb => { tb with cols := tb.cols ++ [⟨"command_executed".toList, .text⟩] }))
  else .raised .nameError

/-- `DatabaseManager.__init__(db_path)` (source lines 59-64): sets
`table_schemas = {}` and immediately calls `setup_database`. -/
def databaseManagerInit (globals : List Name) (st : List (Name × Table)) :
    SetupOutcome :=
  setupDatabase globals st

/-! ## Reachable `DatabaseManager` states

`_load_existing_schemas` (source lines 129-134) is the only code that writes
into `self.table_schemas`; the source contains no call to it (nor to
`_create_base_tables`).  `Op` enumerates the operations the program can
invoke on a manager after `__init__`; `loadExistingSchemas` is defined below
to document what the uncalled method would do, and is deliberately absent
from `Op` because it has no call site. -/

/-- What `DatabaseManager._load_existing_schemas` would do if it were called:
record every store table name in `table_schemas`. -/
def loadExistingSchemas (db : DBM) : DBM :=
  { db with tableSchemas := db.tableSchemas ++ storeNames db.store }

/-- The operations invocable on a `DatabaseManager` (each embeds one method
with a call site in the source). -/
inductive Op
  | ensure (t : Name) (df : Df)
  | ingest (csvFile : Name) (crawlId : Int) (now : Int) (df : Df)
  | optimize (vacuumFails : Bool)
  | cleanup (daysToKeep : Int) (now : Int)

def stepOp (db : DBM) : Op → DBM
  | .ensure t df => (ensureTable db t df).db
  | .ingest f cid now df => (processCsv db f cid now df).db
  | .optimize v => (optimizeDatabase db v).db
  | .cleanup d n => (cleanupOldRecords db d n).db

def runOps (db : DBM) : List Op → DBM
  | [] => db
  | op :: rest => runOps (stepOp db op) rest

/-- The manager state right after `__init__` (source line 63:
`self.table_schemas = {}`), over an arbitrary on-disk store. -/
def mkManager (st : List (Name × Table)) (ml : Option (List MLRow)) : DBM :=
  ⟨st, ml, []⟩

/-- The `ALTER TABLE ... ADD COLUMN` operations among a result's mutations. -/
def alterAdds (r : EnsureResult) : List SchemaOp :=
  r.ops.filter (fun o =>
    match o with
    | .addedColumn _ _ => true
    | .createdTable _ => false)

/-! ### Supporting lemmas about the store and the manager state -/

@[simp]
theorem ensureTable_tableSchemas (db : DBM) (t : Name) (df : Df) :
    (ensureTable db t df).db.tableSchemas = db.tableSchemas := by
  unfold ensureTable
  split
  · simp
  · split
    · simp
    · split <;> simp

@[simp]
theorem processCsv_tableSchemas (db : DBM) (f : Name) (cid now : Int) (df : Df) :
    (processCsv db f cid now df).db.tableSchemas = db.tableSchemas := by
  unfold processCsv
  dsimp only
  split
  · simp
  · split <;> simp

@[simp]
theorem optimizeDatabase_tableSchemas (db : DBM) (v : Bool) :
    (optimizeDatabase db v).db.tableSchemas = db.tableSchemas := by
  unfold optimizeDatabase
  split
  · rfl
  · split <;> simp

@[simp]
theorem cleanupOldRecords_tableSchemas (db : DBM) (d n : Int) :
    (cleanupOldRecords db d n).db.tableSchemas = db.tableSchemas := by
  unfold cleanupOldRecords
  split
  · rfl
  · dsimp only
    split <;> simp

theorem stepOp_tableSchemas (db : DBM) (op : Op) :
    (stepOp db op).tableSchemas = db.tableSchemas := by
  cases op <;> simp [stepOp]

theorem runOps_tableSchemas :
    ∀ (ops : List Op) (db : DBM), (runOps db ops).tableSchemas = db.tableSchemas := by
  intro ops
  induction ops with
  | nil => intro db; rfl
  | cons op rest ih =>
    intro db
    rw [runOps, ih, stepOp_tableSchemas]

/-- C9: constructing a `DatabaseManager` always raises an unhandled
`NameError`, for every on-disk store: `setup_database` resolves
`column_exists` as a bare name against the module's top-level namespace,
which does not bind it (it is only a `DatabaseManager` class attribute), so
registry initialization can never complete. -/
theorem database_manager_init_name_error (st : List (Name × Table)) :
    databaseManagerInit moduleTopLevelNames st = .raised PyErr.nameError := by
  unfold databaseManagerInit setupDatabase
  rw [if_neg (by decide : ¬ ("column_exists".toList ∈ moduleTopLevelNames))]

/-- C10: for every `DatabaseManager` started from `__init__`
(`table_schemas = {}`) over any on-disk store, after any sequence of
operations the `table_schemas` dict is still empty — `_load_existing_schemas`
has no call site — so `ensure_table_for_dataframe` can never take its
existing-table branch (it performs no ALTER for any table and frame) and the
per-table delete loop of `cleanup_old_records` deletes nothing (empty
per-table counts, store untouched). -/
theorem table_schemas_forever_empty (st0 : List (Name × Table))
    (ml0 : Option (List MLRow)) (ops : List Op) :
    (runOps (mkManager st0 ml0) ops).tableSchemas = [] ∧
    (∀ t df, alterAdds (ensureTable (runOps (mkManager st0 ml0) ops) t df) = []) ∧
    (∀ d n, (cleanupOldRecords (runOps (mkManager st0 ml0) ops) d n).counts = [] ∧
      (cleanupOldRecords (runOps (mkManager st0 ml0) ops) d n).db.store
        = (runOps (mkManager st0 ml0) ops).store) := by
  have hts : (runOps (mkManager st0 ml0) ops).tableSchemas = [] := by
    rw [runOps_tableSchemas]
    rfl
  refine ⟨hts, ?_, ?_⟩
  · intro t df
    unfold ensureTable
    rw [if_neg (by rw [hts]; exact List.not_mem_nil t)]
    split
    · simp [alterAdds]
    · split <;> simp [alterAdds]
  · intro d n
    unfold cleanupOldRecords
    split
    · exact ⟨rfl, rfl⟩
    · dsimp only
      rw [show tablesToClean.foldl _ (Except.ok ((runOps (mkManager st0 ml0) ops).store,
            ([] : List (Name × Nat)))) = Except.ok ((runOps (mkManager st0 ml0) ops).store, []) from by
          simp [tablesToClean, List.foldl, hts]]
      exact ⟨rfl, rfl⟩

/-! ## Concrete runs deciding the schema-registry and maintenance claims -/

/-- A frame with one `url` column and one row, as parsed from a result CSV. -/
def dfInternal : Df := ⟨["url".toList], [[Value.vstr ("http://x".toList)]]⟩

/-- The state after a first `ensure_table_for_dataframe('sf_internal', df)`
call on a fresh manager (empty store, `table_schemas = {}`). -/
def afterFirstEnsure : EnsureResult :=
  ensureTable (mkManager [] none) ("sf_internal".toList) dfInternal

/-- C1 (failing run): the first `ensure_table_for_dataframe` call creates
`sf_internal`; the second call with the identical column set is not a
zero-ALTER no-op decided against the live column set — the existence decision
consults the never-populated `table_schemas` dict, so the call re-enters the
create branch and raises `OperationalError: table already exists`. -/
theorem ensure_second_identical_call_raises :
    afterFirstEnsure.err = none ∧
    afterFirstEnsure.ops = [SchemaOp.createdTable ("sf_internal".toList)] ∧
    (ensureTable afterFirstEnsure.db ("sf_internal".toList) dfInternal).err
      = some PyErr.tableAlreadyExists ∧
    (ensureTable afterFirstEnsure.db ("sf_internal".toList) dfInternal).ops = [] := by
  decide

/-- A frame whose column set is a strict superset of `dfSub`'s. -/
def dfSuper : Df := ⟨["url".toList, "status_code".toList], []⟩

def dfSub : Df := ⟨["url".toList], []⟩

/-- The state after `ensure_table_for_dataframe('sf_response_codes', dfSub)`
on a fresh manager. -/
def afterSubEnsure : EnsureResult :=
  ensureTable (mkManager [] none) ("sf_response_codes".toList) dfSub

/-- C7 (failing run): re-ensuring an existing table with a superset column
set does not add the new column — the create branch is re-entered (the
`table_schemas` guard fails) and raises table-already-exists, leaving
`status_code` absent and the store unchanged. -/
theorem ensure_superset_call_raises :
    afterSubEnsure.err = none ∧
    ("url".toList ∈ liveCols afterSubEnsure.db.store ("sf_response_codes".toList)) ∧
    (ensureTable afterSubEnsure.db ("sf_response_codes".toList) dfSuper).err
      = some PyErr.tableAlreadyExists ∧
    (ensureTable afterSubEnsure.db ("sf_response_codes".toList) dfSuper).db
      = afterSubEnsure.db ∧
    ("status_code".toList
      ∉ liveCols (ensureTable afterSubEnsure.db ("sf_response_codes".toList) dfSuper).db.store
          ("sf_response_codes".toList)) := by
  decide

/-- A `crawl_metadata` row whose `crawl_date` is day `d`, with id `i`. -/
def cmRowAged (d : Int) (i : Int) : List (Name × Value) :=
  [("id".toList, Value.vint i), ("url".toList, Value.vstr ("http://x".toList)),
   ("crawl_date".toList, Value.vts d), ("crawl_status".toList,
    Value.vstr ("completed".toList))]

/-- `crawl_metadata` holding records crawled 10, 40 and 400 days before day
1000. -/
def cmTableAged : Table :=
  ⟨cmSchemaCols, [cmRowAged 990 1, cmRowAged 960 2, cmRowAged 600 3]⟩

/-- A `crawl_results` table (schema from `ScreamingFrogWrapper.setup_database`,
source lines 389-402: no `crawl_date` column) with one row referencing the
10-day-old crawl. -/
def crTableAged : Table :=
  ⟨[⟨"id".toList, .integer⟩, ⟨"crawl_id".toList, .integer⟩, ⟨"url".toList, .text⟩],
   [[("id".toList, Value.vint 1), ("crawl_id".toList, Value.vint 1),
     ("url".toList, Value.vstr ("http://x/a".toList))]]⟩

/-- A store aged as in the claim, under a manager whose `table_schemas` is
`{}` — the only reachable value — with a `maintenance_log` table present so
the run itself completes. -/
def dbAged : DBM :=
  mkManager [("crawl_metadata".toList, cmTableAged),
             ("crawl_results".toList, crTableAged)] (some [])

/-- C2 (failing run): `cleanup_old_records(30)` at day 1000 on a store with
crawl records dated 10, 40 and 400 days ago deletes nothing — both table
names fail the `table in self.table_schemas` guard, so the run reports no
per-table deletions and leaves all three records (and the result rows) in
place, while logging the attempt as completed. -/
theorem cleanup_deletes_nothing :
    (cleanupOldRecords dbAged 30 1000).err = none ∧
    (cleanupOldRecords dbAged 30 1000).counts = [] ∧
    (cleanupOldRecords dbAged 30 1000).db.store = dbAged.store := by
  decide

/-- A manager whose `maintenance_log` table exists (out of band) and is
empty. -/
def dbWithLog : DBM := mkManager [] (some [])

/-- C5 (failing run): when the work step of `optimize_database` fails, the
`conn.rollback()` also rolls back the `in_progress` insert made inside the
same transaction, so the handler's `failed` update matches no row: the
maintenance log entry is lost entirely — it is neither persisted as failed
nor left in_progress — although the rollback itself is complete (store
unchanged) and no exception escapes. -/
theorem optimize_failure_loses_log_entry :
    (optimizeDatabase dbWithLog true).err = none ∧
    (optimizeDatabase dbWithLog true).db.maintLog = some [] ∧
    (optimizeDatabase dbWithLog true).db.store = dbWithLog.store := by
  decide

/-! ## CrawlLedger claims -/

/-- A `crawl_metadata` record already in the terminal state `completed`. -/
def rowDone : CrawlRow :=
  ⟨1, "http://x".toList, 0, "default".toList, "completed".toList,
   none, some 5, none, "cmd".toList⟩

/-- C3 counterexample: on a ledger holding one record for crawl id 1 already
in the terminal state `completed`, a subsequent fail call is not a no-op —
the record is modified (status, elapsed time and error detail are all
overwritten). -/
theorem second_close_changes_terminal_record :
    rowDone.crawlStatus = "completed".toList ∧
    updateCrawlFailure [rowDone] (some 1) 9 ("boom".toList) ≠ [rowDone] := by
  decide

/-- C3 amended: a subsequent complete or fail call for an id whose record is
already terminal is not a no-op: the `UPDATE` is unconditional on the current
status, so the second close overwrites the record's status and elapsed time
(and, for fail, the error detail) with the new call's values. -/
theorem second_close_overwrites (rows : List CrawlRow) (r : CrawlRow)
    (cid : Nat) (t : Int) (err : Name)
    (hmem : r ∈ rows) (hid : r.id = cid)
    (_hterm : r.crawlStatus = "completed".toList ∨ r.crawlStatus = "failed".toList) :
    ({ r with
        crawlStatus := "failed".toList,
        completionTime := some t,
        errorMessage := some err } ∈ updateCrawlFailure rows (some cid) t err) ∧
    ({ r with
        crawlStatus := "completed".toList,
        completionTime := some t } ∈ completeCrawl rows cid t) := by
  constructor
  · unfold updateCrawlFailure
    have h := List.mem_map_of_mem
      (f := fun r' : CrawlRow =>
        if r'.id = cid then
          { r' with
              crawlStatus := "failed".toList,
              completionTime := some t,
              errorMessage := some err }
        else r') hmem
    dsimp only at h
    rw [if_pos hid] at h
    exact h
  · unfold completeCrawl
    have h := List.mem_map_of_mem
      (f := fun r' : CrawlRow =>
        if r'.id = cid then
          { r' with
              crawlStatus := "completed".toList,
              completionTime := some t }
        else r') hmem
    dsimp only at h
    rw [if_pos hid] at h
    exact h

/-- Witness for the amended C3 on a concrete terminal record. -/
theorem second_close_overwrites_witness :
    (rowDone ∈ [rowDone] ∧ rowDone.id = 1 ∧
      (rowDone.crawlStatus = "completed".toList ∨
       rowDone.crawlStatus = "failed".toList)) ∧
    (({ rowDone with
          crawlStatus := "failed".toList,
          completionTime := some 9,
          errorMessage := some ("boom".toList) }
          ∈ updateCrawlFailure [rowDone] (some 1) 9 ("boom".toList)) ∧
     ({ rowDone with
          crawlStatus := "completed".toList,
          completionTime := some 9 } ∈ completeCrawl [rowDone] 1 9)) :=
  ⟨⟨by decide, by decide, by decide⟩,
   second_close_overwrites [rowDone] rowDone 1 9 ("boom".toList)
     (by decide) (by decide) (by decide)⟩

/-! ## IngestionPipeline claims -/

/-- A fresh manager over an empty store. -/
def freshManager : DBM := mkManager [] none

/-- An empty batch: a parsed header with zero data rows. -/
def emptyBatch : Df := ⟨["url".toList], []⟩

/-- C4 (failing run): ingesting an empty batch (header `url`, zero data rows)
on a fresh manager does raise: the ingestion sets `crawl_id`, `source_file`
and `processed_at` on the frame (source lines 292-294) and
`ensure_table_for_dataframe` appends `metadata_columns` again (line 156), so
the `CREATE TABLE` repeats those names and SQLite raises `OperationalError:
duplicate column name`, re-raised to the caller; nothing is stored, no table
is created and no column is added — the claimed zero-count no-op with no
error does not occur. -/
theorem empty_batch_ingest_raises_duplicate_column :
    (processCsv freshManager ("internal_all.csv".toList) 1 1000 emptyBatch).err
      = some PyErr.duplicateColumn ∧
    (processCsv freshManager ("internal_all.csv".toList) 1 1000 emptyBatch).ops = [] ∧
    (processCsv freshManager ("internal_all.csv".toList) 1 1000 emptyBatch).db
      = freshManager := by
  decide

end SFOrch
